import Mathlib

/-!
Verification of the IC++ pricing breakdown calculator
(`icpp_calculator.py`): a shallow embedding of its data model and core
operations, with theorems settling the spec's claims about it.

Modelling conventions:
* Monetary amounts are exact rationals (`ℚ`); the Python code stores them
  as decimal-string-parsed numbers and all claimed identities are exact.
* Python dictionaries keyed by strings (CSV rows, transactions, the fee
  store) are association lists `List (String × _)` with insert-overwrite
  semantics; `dict.get(k, d)` becomes `rowGetD`, where an absent key and
  Python's `None` are both represented by the default.
* Python string truthiness (used by the `a or b` identifier chains) is
  non-emptiness: `pyOr`.
-/

namespace ICPP

/-- A CSV/worksheet row or a transaction: a string-keyed association list
(the embedding of the Python dictionaries built by the readers). -/
abbrev Row := List (String × String)

/-- Embeds `row.get(k, d)` on a Python dictionary: value of the first entry with
key `k`, or the default `d` when no such entry exists. -/
def rowGetD (r : Row) (k d : String) : String :=
  ((r.find? (fun p => p.1 == k)).map (fun p => p.2)).getD d

/-- Embeds `row.get(k)` with Python's `None` for an absent key collapsed to `""`
(both are falsy in every context the program uses them in). -/
def rowGet (r : Row) (k : String) : String := rowGetD r k ""

/-- Python's `a or b` on strings: `a` when non-empty (truthy), else `b`. -/
def pyOr (a b : String) : String := if a = "" then b else a

/-- ASCII upper-casing of one character code, as `str.upper()` acts on the
ASCII inputs this program feeds it: codes 97..122 shift down by 32. -/
def upperCode (n : Nat) : Nat := if 97 ≤ n ∧ n ≤ 122 then n - 32 else n

/-- ASCII upper-casing of a character (`str.upper()` restricted to the
ASCII range actually exercised by the program's field values). -/
def upperChar (c : Char) : Char :=
  if ('a' ≤ c ∧ c ≤ 'z') then Char.ofNat (c.toNat - 32) else c

/-- Embeds `s.upper()` on a string, character by character. -/
def upperStr (s : String) : String := ⟨s.data.map upperChar⟩

/-- Python's `needle in hay` substring test on strings. -/
def strContains (hay needle : String) : Bool :=
  hay.data.tails.any (fun t => needle.data.isPrefixOf t)

/-- Decimal digit test on a character. -/
def isDigitChar (c : Char) : Bool := ('0' ≤ c ∧ c ≤ '9')

/-- Numeric value of a list of decimal digit characters, most significant
first. -/
def digitsToNat (l : List Char) : Nat :=
  l.foldl (fun acc c => acc * 10 + (c.toNat - 48)) 0

/-- Unsigned part of Python's `float(s)` on the plain decimal strings this
program's data uses: digits with an optional single decimal point
(`"12"`, `"12."`, `".5"`, `"12.5"`); anything else fails. -/
def parseUnsigned (l : List Char) : Option ℚ :=
  let intPart := l.takeWhile isDigitChar
  let rest := l.dropWhile isDigitChar
  match rest with
  | [] => if intPart.isEmpty then none else some (digitsToNat intPart : ℚ)
  | c :: frac =>
    if c = '.' ∧ frac.all isDigitChar ∧ ¬(intPart.isEmpty ∧ frac.isEmpty) then
      some ((digitsToNat intPart : ℚ) +
        (digitsToNat frac : ℚ) / ((10 : ℚ) ^ frac.length))
    else none

/-- Python's `float(s)`: optional sign then an unsigned decimal numeral;
`none` models the `ValueError` raised on anything else.  (Modelled on the
plain decimal fragment of `float`; the program's amounts are plain
decimals.) -/
def parseFloatStrict (s : String) : Option ℚ :=
  match s.data with
  | [] => none
  | c :: rest =>
    if c = '-' then (parseUnsigned rest).map (fun q => -q)
    else if c = '+' then parseUnsigned rest
    else parseUnsigned (c :: rest)

/-- Embeds `FeeDataLoader._parse_float`: lenient float parse, `0.0` on the empty
string or any parse failure, never raising. -/
def parse_float (s : String) : ℚ := (parseFloatStrict s).getD 0

/-- One parsed fee-CSV row as stored by `FeeDataLoader.load`: the fixed
set of named (amount, currency) pairs. -/
structure FeeRecord where
  mdr_amount : ℚ := 0
  mdr_currency : String := ""
  interchange_amount : ℚ := 0
  interchange_currency : String := ""
  scheme_fee_amount : ℚ := 0
  scheme_fee_currency : String := ""
  gateway_fee_amount : ℚ := 0
  gateway_fee_currency : String := ""
  authorization_amount : ℚ := 0
  authorization_currency : String := ""
  clearing_amount : ℚ := 0
  clearing_currency : String := ""
  cross_border_amount : ℚ := 0
  cross_border_currency : String := ""
  cross_currency_amount : ℚ := 0
  cross_currency_currency : String := ""
  preauthorization_amount : ℚ := 0
  preauthorization_currency : String := ""
  three_ds_amount : ℚ := 0
  three_ds_currency : String := ""
  non_three_ds_amount : ℚ := 0
  non_three_ds_currency : String := ""
  vat_amount : ℚ := 0
  vat_currency : String := ""
  wht_amount : ℚ := 0
  wht_currency : String := ""
  grt_amount : ℚ := 0
  grt_currency : String := ""
  st_amount : ℚ := 0
  st_currency : String := ""
  deriving DecidableEq

/-- The detailed 2nd-Plus component dictionary inside a breakdown
(`second_plus_details` in `calculate_icpp`'s result). -/
structure SecondPlusDetails where
  gateway_fee : ℚ
  authorization_fee : ℚ
  clearing_fee : ℚ
  cross_border_fee : ℚ
  cross_currency_fee : ℚ
  preauth_fee : ℚ
  three_ds_fee : ℚ
  non_three_ds_fee : ℚ
  vat : ℚ
  wht : ℚ
  grt : ℚ
  st : ℚ
  net_acquirer_markup : ℚ
  deriving DecidableEq

/-- The IC++ breakdown returned by `calculate_icpp`. -/
structure Breakdown where
  ic : ℚ
  first_plus : ℚ
  second_plus : ℚ
  mdr : ℚ
  second_plus_details : SecondPlusDetails
  deriving DecidableEq

/-- Embeds `calculate_icpp(transaction, fees, region)`: the fee-waterfall
computation.  The `transaction` argument is unused by the source function
as well; it is kept for signature fidelity. -/
def calculate_icpp (_transaction : Row) (fees : FeeRecord) (region : String) :
    Breakdown :=
  let mdr := fees.mdr_amount
  let interchange := fees.interchange_amount
  -- MY region special case - NO scheme fees
  let scheme_fee := if region = "MY" then 0 else fees.scheme_fee_amount
  let gateway_fee := fees.gateway_fee_amount
  let authorization_fee := fees.authorization_amount
  let clearing_fee := fees.clearing_amount
  let cross_border_fee := fees.cross_border_amount
  let cross_currency_fee := fees.cross_currency_amount
  let preauth_fee := fees.preauthorization_amount
  let three_ds_fee := fees.three_ds_amount
  let non_three_ds_fee := fees.non_three_ds_amount
  let vat := fees.vat_amount
  let wht := fees.wht_amount
  let grt := fees.grt_amount
  let st := fees.st_amount
  let second_plus_total := mdr - interchange - scheme_fee
  let known_components := gateway_fee + authorization_fee + clearing_fee +
    cross_border_fee + cross_currency_fee + preauth_fee +
    three_ds_fee + non_three_ds_fee + vat + wht + grt + st
  let net_acquirer_markup := second_plus_total - known_components
  { ic := interchange
    first_plus := scheme_fee
    second_plus := second_plus_total
    mdr := mdr
    second_plus_details :=
      { gateway_fee := gateway_fee
        authorization_fee := authorization_fee
        clearing_fee := clearing_fee
        cross_border_fee := cross_border_fee
        cross_currency_fee := cross_currency_fee
        preauth_fee := preauth_fee
        three_ds_fee := three_ds_fee
        non_three_ds_fee := non_three_ds_fee
        vat := vat
        wht := wht
        grt := grt
        st := st
        net_acquirer_markup := net_acquirer_markup } }

/-- Claim C1: for every fee record and region (and any transaction), the
computed breakdown satisfies `second_plus = mdr_amount -
interchange_amount - first_plus` and `net_acquirer_markup = second_plus -
(gateway + authorization + clearing + cross_border + cross_currency +
preauthorization + 3DS + non-3DS + VAT + WHT + GRT + ST)`, exactly, in
the exact-rational model — negative results are preserved, not clamped. -/
theorem calculate_icpp_residual_invariant (t : Row) (fees : FeeRecord)
    (region : String) :
    (calculate_icpp t fees region).second_plus =
      fees.mdr_amount - fees.interchange_amount -
        (calculate_icpp t fees region).first_plus ∧
    (calculate_icpp t fees region).second_plus_details.net_acquirer_markup =
      (calculate_icpp t fees region).second_plus -
        ((calculate_icpp t fees region).second_plus_details.gateway_fee +
         (calculate_icpp t fees region).second_plus_details.authorization_fee +
         (calculate_icpp t fees region).second_plus_details.clearing_fee +
         (calculate_icpp t fees region).second_plus_details.cross_border_fee +
         (calculate_icpp t fees region).second_plus_details.cross_currency_fee +
         (calculate_icpp t fees region).second_plus_details.preauth_fee +
         (calculate_icpp t fees region).second_plus_details.three_ds_fee +
         (calculate_icpp t fees region).second_plus_details.non_three_ds_fee +
         (calculate_icpp t fees region).second_plus_details.vat +
         (calculate_icpp t fees region).second_plus_details.wht +
         (calculate_icpp t fees region).second_plus_details.grt +
         (calculate_icpp t fees region).second_plus_details.st) :=
  ⟨rfl, rfl⟩

/-- Claim C2: the computed `first_plus` is `0` whenever the classified
region is `MY`, regardless of the fee record's scheme-fee amount, and
equals the fee record's scheme-fee amount for every other region. -/
theorem calculate_icpp_my_scheme_fee_waiver (t : Row) (fees : FeeRecord)
    (region : String) :
    (calculate_icpp t fees region).first_plus =
      if region = "MY" then 0 else fees.scheme_fee_amount :=
  rfl

/-- Embeds `ExcelReader._col_letter_to_num`: Excel column letters to 0-based
index via `num = num * 26 + (ord(char.upper()) - ord('A') + 1)` over the
character codes, returning `num - 1`. -/
def col_letter_to_num (l : List Nat) : Int :=
  (l.foldl (fun num c => num * 26 + ((upperCode c : Int) - 65 + 1)) 0) - 1

/-- Modelled from the spec: a base-26 numeral whose digits are uppercase
letter codes mapping `A..Z` to `1..26`, most-significant letter first
(positional form, for comparison with the source's Horner loop). -/
def base26Digits : List Nat → Int
  | [] => 0
  | d :: rest => ((d : Int) - 64) * 26 ^ rest.length + base26Digits rest

/-- Modelled from the spec: `letterToIndex` as the spec words it — the
base-26 value of the uppercase letters, made 0-based. -/
def letterToIndexSpec (l : List Nat) : Int := base26Digits l - 1

/-- Upper-casing is idempotent: upper-casing an already-upper-cased code
changes nothing. -/
theorem upperCode_idem (n : Nat) : upperCode (upperCode n) = upperCode n := by
  unfold upperCode
  split
  · split <;> omega
  · rfl

/-- Horner evaluation in the source loop equals the positional base-26
value, for any accumulator. -/
theorem foldl_horner_eq_base26 (l : List Nat) :
    ∀ acc : Int,
      l.foldl (fun num c => num * 26 + ((upperCode c : Int) - 65 + 1)) acc =
        acc * 26 ^ l.length + base26Digits (l.map upperCode) := by
  induction l with
  | nil => intro acc; simp [base26Digits]
  | cons c l ih =>
    intro acc
    rw [List.foldl_cons, ih]
    simp only [List.map_cons, base26Digits, List.length_cons,
      List.length_map]
    ring

/-- Claim C4: the column-letter-to-index conversion is the base-26
numeral reading of the letters with `A..Z ↦ 1..26`, most-significant
first, 0-based; it is case-insensitive; and it maps `A` (65) to 0, `Z`
(90) to 25, `AA` to 26, `AZ` to 51, `BA` to 52, and lowercase `ba` to 52
as well. -/
theorem col_letter_to_num_base26 :
    (∀ l : List Nat, (∀ c ∈ l, 65 ≤ c ∧ c ≤ 90) →
        col_letter_to_num l = letterToIndexSpec l) ∧
    (∀ l : List Nat, col_letter_to_num (l.map upperCode) =
        col_letter_to_num l) ∧
    col_letter_to_num [65] = 0 ∧
    col_letter_to_num [90] = 25 ∧
    col_letter_to_num [65, 65] = 26 ∧
    col_letter_to_num [65, 90] = 51 ∧
    col_letter_to_num [66, 65] = 52 ∧
    col_letter_to_num [98, 97] = 52 := by
  refine ⟨?_, ?_, by decide, by decide, by decide, by decide, by decide,
    by decide⟩
  · intro l h
    unfold col_letter_to_num letterToIndexSpec
    rw [foldl_horner_eq_base26]
    have hmap : l.map upperCode = l := by
      rw [show l.map upperCode = l.map id from
        List.map_congr_left fun a ha => by
          have := h a ha
          unfold upperCode
          split <;> [omega; rfl]]
      exact l.map_id
    rw [hmap]; ring
  · intro l
    unfold col_letter_to_num
    rw [List.foldl_map]
    simp only [upperCode_idem]

/-- Witness for C4: the source conversion agrees with the spec's base-26
reading at the concrete column `BA`. -/
theorem col_letter_to_num_base26_witness :
    col_letter_to_num [66, 65] = letterToIndexSpec [66, 65] :=
  col_letter_to_num_base26.1 [66, 65] (by decide)

/-- Assignment `transaction[headers[i]] = value` into a Python dict:
overwrite the existing entry for the key in place, else append. -/
def dictInsert (d : Row) (k v : String) : Row :=
  if d.any (fun p => p.1 == k) then
    d.map (fun p => if p.1 == k then (k, v) else p)
  else d ++ [(k, v)]

/-- The transaction-dictionary construction in
`ExcelReader._load_worksheet`: iterate the row's dense cell list with its
index, keeping only indices below the header count, and assign
`headers[i] ↦ value` into a dict — i.e. fold `dictInsert` over
`headers.zip row_data`. -/
def buildTransaction (headers row_data : List String) : Row :=
  (headers.zip row_data).foldl (fun d p => dictInsert d p.1 p.2) []

/-- Embeds `ExcelReader._load_worksheet` from the parsed dense rows onward:
fewer than 3 rows produce no transactions; otherwise row index 1 is the
header list, each later row is zipped against it, and a transaction is
kept only when `Gateway UUID` or `Transaction ID` is non-empty. -/
def loadWorksheet (rows : List (List String)) : List Row :=
  if rows.length < 3 then []
  else
    ((rows.drop 2).map (fun r => buildTransaction (rows.getD 1 []) r)).filter
      (fun t => !(rowGet t "Gateway UUID" == "") ||
        !(rowGet t "Transaction ID" == ""))

/-- Claim C10: a worksheet with fewer than
3 rows yields zero transactions (the reader returns normally with an
empty result, not an error). -/
theorem load_worksheet_short_input (rows : List (List String))
    (h : rows.length < 3) : loadWorksheet rows = [] := by
  simp [loadWorksheet, h]

/-- Witness for C10: a worksheet holding only a title row and a header
row yields zero transactions. -/
theorem load_worksheet_short_input_witness :
    loadWorksheet [["Title"], ["Gateway UUID", "Amount"]] = [] :=
  load_worksheet_short_input _ (by decide)

/-- Counterexample for C8: with headers `["H1", "H2"]` and a data row
holding a single cell `["v"]`, the built transaction is `[("H1", "v")]` —
header `H2` is an absent key, not a key mapped to the empty string as the
claim states. -/
theorem build_transaction_missing_key_counterexample :
    buildTransaction ["H1", "H2"] ["v"] = [("H1", "v")] ∧
    (buildTransaction ["H1", "H2"] ["v"]).find?
      (fun p => p.1 == "H2") = none := by
  constructor <;> rfl

/-- The first components of a zip form a sublist (in fact a prefix) of
the left operand. -/
theorem zip_map_fst_sublist :
    ∀ (l₁ : List String) (l₂ : List String),
      List.Sublist ((l₁.zip l₂).map Prod.fst) l₁
  | [], _ => by simp
  | _ :: _, [] => by simp
  | a :: l₁, _ :: l₂ => by
    simpa using (zip_map_fst_sublist l₁ l₂).cons₂ a

/-- Folding fresh, pairwise-distinct key-value pairs into a dict appends
them in order. -/
theorem foldl_dictInsert_fresh (ps : List (String × String)) :
    ∀ d : Row, (ps.map Prod.fst).Nodup →
      (∀ p ∈ ps, ∀ q ∈ d, q.1 ≠ p.1) →
      ps.foldl (fun d p => dictInsert d p.1 p.2) d = d ++ ps := by
  induction ps with
  | nil => intro d _ _; simp
  | cons p ps ih =>
    intro d hnd hfresh
    have hnd' : ¬ p.1 ∈ ps.map Prod.fst ∧ (ps.map Prod.fst).Nodup := by
      simpa using hnd
    have hany : d.any (fun q => q.1 == p.1) = false := by
      simp only [List.any_eq_false, beq_iff_eq]
      intro q hq
      exact hfresh p (List.mem_cons_self p ps) q hq
    rw [List.foldl_cons]
    show ps.foldl (fun d p => dictInsert d p.1 p.2) (dictInsert d p.1 p.2)
      = d ++ p :: ps
    have hstep : dictInsert d p.1 p.2 = d ++ [p] := by
      unfold dictInsert
      rw [hany]
      simp
    rw [hstep, ih (d ++ [p]) hnd'.2]
    · simp
    · intro r hr q hq
      rcases List.mem_append.1 hq with hq | hq
      · exact hfresh r (List.mem_cons_of_mem p hr) q hq
      · have hqp : q = p := by simpa using hq
        subst hqp
        intro hk
        exact hnd'.1 (hk ▸ List.mem_map_of_mem Prod.fst hr)

/-- Claim C8 (amended): when the headers are pairwise distinct, the built
transaction mapping is exactly the positional zip of headers with the
row's cells — extra cells beyond the header count are dropped, and
headers beyond the row's cell count are absent keys (their lookups fall
back to defaults), not empty-string entries. -/
theorem build_transaction_zip (headers row_data : List String)
    (h : headers.Nodup) :
    buildTransaction headers row_data = headers.zip row_data := by
  unfold buildTransaction
  rw [foldl_dictInsert_fresh (headers.zip row_data) []
    ((zip_map_fst_sublist headers row_data).nodup h)
    (fun p _ q hq => absurd hq (List.not_mem_nil q))]
  simp

/-- Witness for C8 (amended): distinct concrete headers zipped against a
longer cell row — the extra third cell is dropped. -/
theorem build_transaction_zip_witness :
    buildTransaction ["H1", "H2"] ["v1", "v2", "v3"] =
      [("H1", "v1"), ("H2", "v2")] :=
  build_transaction_zip ["H1", "H2"] ["v1", "v2", "v3"] (by decide)

/-- The fee-CSV identifier fallback chain in `FeeDataLoader.load`:
`NP Transaction ID or Transaction ID or Gateway Reference or
Gateway UUID` (empty = missing = falsy). -/
def rowFeeId (row : Row) : String :=
  pyOr (rowGet row "NP Transaction ID")
    (pyOr (rowGet row "Transaction ID")
      (pyOr (rowGet row "Gateway Reference") (rowGet row "Gateway UUID")))

/-- One fee-CSV row parsed into a `FeeRecord` exactly as
`FeeDataLoader.load` builds its stored dictionary: lenient float parse of
each amount column, verbatim copy of each currency column, all defaults
the empty string. -/
def parseFeeRow (row : Row) : FeeRecord :=
  { mdr_amount := parse_float (rowGetD row "MDR Amount" "")
    mdr_currency := rowGetD row "MDR Currency" ""
    interchange_amount := parse_float (rowGetD row "Interchange Amount" "")
    interchange_currency := rowGetD row "Interchange Currency" ""
    scheme_fee_amount := parse_float (rowGetD row "Scheme Fee Bucket Amount" "")
    scheme_fee_currency := rowGetD row "Scheme Fee Bucket Currency" ""
    gateway_fee_amount := parse_float (rowGetD row "Gateway Fee Amount" "")
    gateway_fee_currency := rowGetD row "Gateway Fee Currency" ""
    authorization_amount := parse_float (rowGetD row "Authorization Amount" "")
    authorization_currency := rowGetD row "Authorization Currency" ""
    clearing_amount := parse_float (rowGetD row "Clearing Amount" "")
    clearing_currency := rowGetD row "Clearing Currency" ""
    cross_border_amount := parse_float (rowGetD row "Cross Border Amount" "")
    cross_border_currency := rowGetD row "Cross Border Currency" ""
    cross_currency_amount := parse_float (rowGetD row "Cross Currency Amount" "")
    cross_currency_currency := rowGetD row "Cross Currency Currency" ""
    preauthorization_amount :=
      parse_float (rowGetD row "Preauthorization Amount" "")
    preauthorization_currency := rowGetD row "Preauthorization Currency" ""
    three_ds_amount := parse_float (rowGetD row "Three Ds Amount" "")
    three_ds_currency := rowGetD row "Three Ds Currency" ""
    non_three_ds_amount := parse_float (rowGetD row "Non Three Ds Amount" "")
    non_three_ds_currency := rowGetD row "Non Three Ds Currency" ""
    vat_amount := parse_float (rowGetD row "VAT Amount" "")
    vat_currency := rowGetD row "VAT Currency" ""
    wht_amount := parse_float (rowGetD row "WHT Amount" "")
    wht_currency := rowGetD row "WHT Currency" ""
    grt_amount := parse_float (rowGetD row "GRT Amount" "")
    grt_currency := rowGetD row "GRT Currency" ""
    st_amount := parse_float (rowGetD row "ST Amount" "")
    st_currency := rowGetD row "ST Currency" "" }

/-- The fee store: `FeeDataLoader.fee_data`, a string-keyed dictionary in
insertion order. -/
abbrev FeeStore := List (String × FeeRecord)

/-- Python dict assignment `fee_data[txn_id] = record`: replace the
existing entry for the key in place, else append. -/
def storeInsert : FeeStore → String → FeeRecord → FeeStore
  | [], k, v => [(k, v)]
  | p :: st, k, v => if p.1 = k then (k, v) :: st else p :: storeInsert st k v

/-- Dictionary lookup in the fee store (`fee_data[txn_id]` /
`txn_id in fee_data`). -/
def storeLookup : FeeStore → String → Option FeeRecord
  | [], _ => none
  | p :: st, k => if p.1 = k then some p.2 else storeLookup st k

/-- The keys of the fee store, in insertion order. -/
def storeKeys (st : FeeStore) : List String := st.map Prod.fst

/-- Embeds `FeeDataLoader.load`: fold the CSV rows into the store, skipping rows
whose identifier chain is empty and overwriting duplicate identifiers. -/
def loadFees (rows : List Row) : FeeStore :=
  rows.foldl
    (fun st row =>
      if rowFeeId row = "" then st
      else storeInsert st (rowFeeId row) (parseFeeRow row)) []

theorem storeLookup_insert_self (st : FeeStore) (k : String)
    (v : FeeRecord) : storeLookup (storeInsert st k v) k = some v := by
  induction st with
  | nil => simp [storeInsert, storeLookup]
  | cons p st ih =>
    by_cases h : p.1 = k <;> simp [storeInsert, storeLookup, h, ih]

theorem storeLookup_insert_other (st : FeeStore) {k X : String}
    (v : FeeRecord) (h : k ≠ X) :
    storeLookup (storeInsert st k v) X = storeLookup st X := by
  induction st with
  | nil => simp [storeInsert, storeLookup, h]
  | cons p st ih =>
    by_cases hp : p.1 = k
    · subst hp
      simp [storeInsert, storeLookup, h]
    · simp [storeInsert, storeLookup, hp, ih]

theorem mem_storeKeys_insert {st : FeeStore} {k X : String}
    {v : FeeRecord} :
    X ∈ storeKeys (storeInsert st k v) ↔ X ∈ storeKeys st ∨ X = k := by
  induction st with
  | nil => simp [storeInsert, storeKeys]
  | cons p st ih =>
    by_cases hp : p.1 = k
    · subst hp
      simp [storeInsert, storeKeys]
      tauto
    · simp [storeInsert, storeKeys, hp] at ih ⊢
      tauto

theorem storeKeys_insert_nodup {st : FeeStore} {k : String}
    {v : FeeRecord} (h : (storeKeys st).Nodup) :
    (storeKeys (storeInsert st k v)).Nodup := by
  induction st with
  | nil => simp [storeInsert, storeKeys]
  | cons p st ih =>
    rw [storeKeys, List.map_cons, List.nodup_cons] at h
    by_cases hp : p.1 = k
    · subst hp
      rw [storeInsert, if_pos rfl]
      rw [storeKeys, List.map_cons, List.nodup_cons]
      exact h
    · rw [storeInsert, if_neg hp]
      rw [storeKeys, List.map_cons, List.nodup_cons]
      refine ⟨fun hmem => ?_, ih h.2⟩
      rcases mem_storeKeys_insert.1 hmem with hmem | hmem
      · exact h.1 hmem
      · exact hp hmem

/-- The single loader step applied to one CSV row. -/
def loadFeeStep (st : FeeStore) (row : Row) : FeeStore :=
  if rowFeeId row = "" then st
  else storeInsert st (rowFeeId row) (parseFeeRow row)

theorem loadFees_eq_foldl (rows : List Row) :
    loadFees rows = rows.foldl loadFeeStep [] := rfl

theorem foldl_loadFeeStep_nodup (rows : List Row) :
    ∀ st : FeeStore, (storeKeys st).Nodup →
      (storeKeys (rows.foldl loadFeeStep st)).Nodup := by
  induction rows with
  | nil => intro st h; simpa using h
  | cons r rows ih =>
    intro st h
    rw [List.foldl_cons]
    refine ih _ ?_
    unfold loadFeeStep
    split
    · exact h
    · exact storeKeys_insert_nodup h

theorem foldl_loadFeeStep_lookup (rows : List Row) {X : String}
    (hX : X ≠ "") :
    ∀ st : FeeStore,
      storeLookup (rows.foldl loadFeeStep st) X =
        (match (rows.filter (fun r => rowFeeId r = X)).getLast? with
         | some r => some (parseFeeRow r)
         | none => storeLookup st X) := by
  induction rows with
  | nil => intro st; simp
  | cons r rows ih =>
    intro st
    rw [List.foldl_cons, ih]
    by_cases hid : rowFeeId r = X
    · have hstep : loadFeeStep st r = storeInsert st X (parseFeeRow r) := by
        unfold loadFeeStep
        rw [if_neg (hid ▸ hX), hid]
      rw [List.filter_cons_of_pos (by simpa using hid)]
      cases hgl : (rows.filter (fun r => rowFeeId r = X)).getLast? with
      | some r'' =>
        have hne : rows.filter (fun r => rowFeeId r = X) ≠ [] := by
          intro hnil
          rw [hnil] at hgl
          exact Option.noConfusion hgl
        obtain ⟨b, m, hbm⟩ := List.exists_cons_of_ne_nil hne
        rw [hbm, List.getLast?_cons_cons, ← hbm, hgl]
      | none =>
        have hfil : rows.filter (fun r => rowFeeId r = X) = [] :=
          List.getLast?_eq_none_iff.1 hgl
        rw [hfil]
        show storeLookup (loadFeeStep st r) X = some (parseFeeRow r)
        rw [hstep, storeLookup_insert_self]
    · have hstep : storeLookup (loadFeeStep st r) X = storeLookup st X := by
        unfold loadFeeStep
        split
        · rfl
        · exact storeLookup_insert_other st _ (fun hk => hid hk)
      rw [List.filter_cons_of_neg (by simpa using hid)]
      cases hgl : (rows.filter (fun r => rowFeeId r = X)).getLast? with
      | some r'' => rfl
      | none => exact hstep

theorem foldl_loadFeeStep_lookup_empty (rows : List Row) :
    ∀ st : FeeStore, storeLookup st "" = none →
      storeLookup (rows.foldl loadFeeStep st) "" = none := by
  induction rows with
  | nil => intro st h; simpa using h
  | cons r rows ih =>
    intro st h
    rw [List.foldl_cons]
    refine ih _ ?_
    unfold loadFeeStep
    split
    · exact h
    · exact (storeLookup_insert_other st _ (by assumption)).trans h

/-- Claim C6: after loading the fee CSV the store has pairwise-distinct
identifiers; for any non-empty identifier the stored record is exactly
the parse of the last CSV row resolving to that identifier (later rows
overwrite earlier ones, absent identifiers yield no entry); and rows
resolving to no identifier are discarded — the empty identifier is never
a key. -/
theorem fee_store_last_write_wins (rows : List Row) (X : String)
    (hX : X ≠ "") :
    (storeKeys (loadFees rows)).Nodup ∧
    storeLookup (loadFees rows) X =
      ((rows.filter (fun r => rowFeeId r = X)).getLast?).map parseFeeRow ∧
    storeLookup (loadFees rows) "" = none := by
  refine ⟨foldl_loadFeeStep_nodup rows [] (by simp [storeKeys]), ?_,
    foldl_loadFeeStep_lookup_empty rows [] rfl⟩
  rw [loadFees_eq_foldl, foldl_loadFeeStep_lookup rows hX []]
  cases (rows.filter (fun r => rowFeeId r = X)).getLast? <;> rfl

/-- Witness for C6: two fee rows both identified by `NP Transaction
ID = "X"` leave exactly one stored record for `"X"`, and it parses the
later row (MDR 2.5, not 1). -/
theorem fee_store_last_write_wins_witness :
    storeLookup
      (loadFees [[("NP Transaction ID", "X"), ("MDR Amount", "1.00")],
        [("NP Transaction ID", "X"), ("MDR Amount", "2.50")]]) "X" =
      some (parseFeeRow
        [("NP Transaction ID", "X"), ("MDR Amount", "2.50")]) ∧
    storeKeys
      (loadFees [[("NP Transaction ID", "X"), ("MDR Amount", "1.00")],
        [("NP Transaction ID", "X"), ("MDR Amount", "2.50")]]) = ["X"] := by
  have h := fee_store_last_write_wins
    [[("NP Transaction ID", "X"), ("MDR Amount", "1.00")],
      [("NP Transaction ID", "X"), ("MDR Amount", "2.50")]] "X"
    (by decide)
  refine ⟨h.2.1.trans ?_, by rfl⟩
  rfl

/-- The transaction-side identifier chain in `main`: `Transaction ID or
Gateway UUID or Gateway Reference`. -/
def mainTxnId (t : Row) : String :=
  pyOr (rowGet t "Transaction ID")
    (pyOr (rowGet t "Gateway UUID") (rowGet t "Gateway Reference"))

/-- Modelled from the spec: the lookup-identifier preference order the
spec claims — `Gateway UUID`, `Transaction ID`, `Gateway Reference`, in
that order (for comparison with `mainTxnId` from the source). -/
def specLookupId (t : Row) : String :=
  pyOr (rowGet t "Gateway UUID")
    (pyOr (rowGet t "Transaction ID") (rowGet t "Gateway Reference"))

/-- Embeds `is_valid_transaction`: the validity filter, first failing rule
wins — refund payment type, then unparseable amount, then zero amount,
then declined/failed/error processor status. -/
def is_valid_transaction (t : Row) : Bool × String :=
  let payment_type := upperStr (rowGet t "Payment Type")
  if strContains payment_type "REFUND" = true ∨ payment_type = "RF" then
    (false, "Refund transaction")
  else
    match parseFloatStrict (rowGetD t "Amount" "0") with
    | none => (false, "Invalid amount")
    | some amount =>
      if amount = 0 then (false, "Zero amount")
      else
        let status := upperStr (rowGet t "Processor Status")
        if status = "DECLINED" ∨ status = "FAILED" ∨ status = "ERROR" then
          (false, "Status: " ++ status)
        else (true, "")

/-- The per-transaction accept/skip decision of `main`'s processing loop:
the validity filter first, then the fee-store lookup under `mainTxnId`,
then the zero-MDR check.  `some reason` is the skip reason recorded by
`skip_transaction`; `none` means the transaction is processed. -/
def classifyTransaction (fee_data : FeeStore) (t : Row) : Option String :=
  match is_valid_transaction t with
  | (false, reason) => some reason
  | (true, _) =>
    match storeLookup fee_data (mainTxnId t) with
    | none => some "Missing fee data"
    | some fees => if fees.mdr_amount = 0 then some "Zero MDR" else none

/-- Claim C5: a transaction whose upper-cased `Payment Type` contains
the substring `REFUND` or equals exactly `RF` is rejected with reason
"Refund transaction", for every fee store and regardless of its amount
or processor status fields — the refund rule is evaluated first. -/
theorem refund_rejected_first (t : Row) (fee_data : FeeStore)
    (h : strContains (upperStr (rowGet t "Payment Type")) "REFUND" = true ∨
      upperStr (rowGet t "Payment Type") = "RF") :
    classifyTransaction fee_data t = some "Refund transaction" := by
  unfold classifyTransaction is_valid_transaction
  simp only []
  rw [if_pos h]

/-- Witness for C5: a `Payment Type = "Refund"` transaction is rejected
as a refund even against an empty fee store and with a nonzero amount
and approved status. -/
theorem refund_rejected_first_witness :
    classifyTransaction []
      [("Payment Type", "Refund"), ("Amount", "100"),
        ("Processor Status", "APPROVED")] = some "Refund transaction" :=
  refund_rejected_first
    [("Payment Type", "Refund"), ("Amount", "100"),
      ("Processor Status", "APPROVED")] [] (by decide)

/-- Counterexample for C3: on a transaction carrying both a `Gateway
UUID` and a `Transaction ID`, the identifier `main` actually uses is the
`Transaction ID`, not the `Gateway UUID` the claim prefers — and against
a fee store keyed by the `Gateway UUID` the transaction is rejected with
"Missing fee data" although the claim's preference order would find it. -/
theorem lookup_id_order_counterexample :
    mainTxnId [("Payment Type", "SALE"), ("Amount", "100"),
        ("Processor Status", "APPROVED"), ("Gateway UUID", "G-1"),
        ("Transaction ID", "T-1")] = "T-1" ∧
    specLookupId [("Payment Type", "SALE"), ("Amount", "100"),
        ("Processor Status", "APPROVED"), ("Gateway UUID", "G-1"),
        ("Transaction ID", "T-1")] = "G-1" ∧
    classifyTransaction [("G-1", { mdr_amount := 3 })]
      [("Payment Type", "SALE"), ("Amount", "100"),
        ("Processor Status", "APPROVED"), ("Gateway UUID", "G-1"),
        ("Transaction ID", "T-1")] = some "Missing fee data" := by
  refine ⟨rfl, rfl, ?_⟩
  rfl

/-- Claim C3 (amended): the identifier used to look a transaction up in
the fee store is the first non-empty value among its `Transaction ID`,
`Gateway UUID`, and `Gateway Reference` fields, in that preference
order. -/
theorem main_txn_id_preference_order (t : Row) :
    (rowGet t "Transaction ID" ≠ "" →
      mainTxnId t = rowGet t "Transaction ID") ∧
    (rowGet t "Transaction ID" = "" → rowGet t "Gateway UUID" ≠ "" →
      mainTxnId t = rowGet t "Gateway UUID") ∧
    (rowGet t "Transaction ID" = "" → rowGet t "Gateway UUID" = "" →
      mainTxnId t = rowGet t "Gateway Reference") := by
  unfold mainTxnId pyOr
  refine ⟨fun h1 => ?_, fun h1 h2 => ?_, fun h1 h2 => ?_⟩
  · rw [if_neg h1]
  · rw [if_pos h1, if_neg h2]
  · rw [if_pos h1, if_pos h2]

/-- Witness for C3 (amended): with a non-empty `Transaction ID` present,
that field is the lookup identifier. -/
theorem main_txn_id_preference_order_witness :
    mainTxnId [("Transaction ID", "T-9"), ("Gateway UUID", "G-9")] =
      "T-9" :=
  (main_txn_id_preference_order
    [("Transaction ID", "T-9"), ("Gateway UUID", "G-9")]).1 (by decide)

/-- One stored transaction reference inside a bucket
(`bucket['transactions']` entries). -/
structure TxnRef where
  id : String
  amount : ℚ
  icpp : Breakdown
  deriving DecidableEq

/-- One aggregation bucket of `StatisticsAggregator.stats`, with the
fields of the defaultdict initializer in source order. -/
structure Bucket where
  count : ℕ
  total_volume : ℚ
  total_ic : ℚ
  total_first_plus : ℚ
  total_second_plus : ℚ
  total_mdr : ℚ
  currency : String
  transactions : List TxnRef
  total_gateway_fee : ℚ
  total_authorization_fee : ℚ
  total_clearing_fee : ℚ
  total_cross_border_fee : ℚ
  total_cross_currency_fee : ℚ
  total_preauth_fee : ℚ
  total_three_ds_fee : ℚ
  total_non_three_ds_fee : ℚ
  total_vat : ℚ
  total_wht : ℚ
  total_grt : ℚ
  total_st : ℚ
  total_net_acquirer_markup : ℚ
  deriving DecidableEq

/-- The zeroed bucket the defaultdict lambda creates on first sight of a
key. -/
def emptyBucket : Bucket :=
  { count := 0
    total_volume := 0
    total_ic := 0
    total_first_plus := 0
    total_second_plus := 0
    total_mdr := 0
    currency := ""
    transactions := []
    total_gateway_fee := 0
    total_authorization_fee := 0
    total_clearing_fee := 0
    total_cross_border_fee := 0
    total_cross_currency_fee := 0
    total_preauth_fee := 0
    total_three_ds_fee := 0
    total_non_three_ds_fee := 0
    total_vat := 0
    total_wht := 0
    total_grt := 0
    total_st := 0
    total_net_acquirer_markup := 0 }

/-- One validated `(transaction, icpp, region)` triple as passed to
`StatisticsAggregator.add_transaction`. -/
structure Triple where
  txn : Row
  icpp : Breakdown
  region : String
  deriving DecidableEq

/-- The bucket key of a triple: `(region, upper-cased Card Type
defaulting to "UNKNOWN")`. -/
def bucketKey (tr : Triple) : String × String :=
  (tr.region, upperStr (rowGetD tr.txn "Card Type" "UNKNOWN"))

/-- The mutation `StatisticsAggregator.add_transaction` performs on the
bucket for the triple's key.  (The amount re-parse `float(t.get('Amount',
0))` cannot fail here because only validated transactions reach the
aggregator; its failure case is modelled as 0.) -/
def add_transaction_bucket (b : Bucket) (t : Row) (icpp : Breakdown) :
    Bucket :=
  let amount := (parseFloatStrict (rowGetD t "Amount" "0")).getD 0
  { count := b.count + 1
    total_volume := b.total_volume + amount
    total_ic := b.total_ic + icpp.ic
    total_first_plus := b.total_first_plus + icpp.first_plus
    total_second_plus := b.total_second_plus + icpp.second_plus
    total_mdr := b.total_mdr + icpp.mdr
    currency := rowGet t "Currency"
    transactions := b.transactions ++
      [{ id := rowGetD t "Gateway UUID" "N/A", amount := amount,
         icpp := icpp }]
    total_gateway_fee :=
      b.total_gateway_fee + icpp.second_plus_details.gateway_fee
    total_authorization_fee :=
      b.total_authorization_fee + icpp.second_plus_details.authorization_fee
    total_clearing_fee :=
      b.total_clearing_fee + icpp.second_plus_details.clearing_fee
    total_cross_border_fee :=
      b.total_cross_border_fee + icpp.second_plus_details.cross_border_fee
    total_cross_currency_fee :=
      b.total_cross_currency_fee + icpp.second_plus_details.cross_currency_fee
    total_preauth_fee :=
      b.total_preauth_fee + icpp.second_plus_details.preauth_fee
    total_three_ds_fee :=
      b.total_three_ds_fee + icpp.second_plus_details.three_ds_fee
    total_non_three_ds_fee :=
      b.total_non_three_ds_fee + icpp.second_plus_details.non_three_ds_fee
    total_vat := b.total_vat + icpp.second_plus_details.vat
    total_wht := b.total_wht + icpp.second_plus_details.wht
    total_grt := b.total_grt + icpp.second_plus_details.grt
    total_st := b.total_st + icpp.second_plus_details.st
    total_net_acquirer_markup :=
      b.total_net_acquirer_markup +
        icpp.second_plus_details.net_acquirer_markup }

/-- The aggregator state: every `(region, card type)` key's bucket (the
nested defaultdict flattened to its total lookup function; keys never
touched still hold the zeroed bucket, exactly as a defaultdict would
materialize them on first read). -/
abbrev Stats := String × String → Bucket

/-- Embeds `StatisticsAggregator.add_transaction` on the whole state: mutate
the triple's bucket, leave every other bucket unchanged. -/
def add_transaction (s : Stats) (tr : Triple) : Stats :=
  fun k =>
    if k = bucketKey tr then add_transaction_bucket (s k) tr.txn tr.icpp
    else s k

/-- The full accumulation pass: fold `add_transaction` over the
validated triples, starting from all-zero buckets. -/
def aggregate (l : List Triple) : Stats :=
  l.foldl add_transaction (fun _ => emptyBucket)

/-- The numeric running sums of a bucket: `count`, `total_volume`, and
every `total_*` field — the projection claim C9 is about (the `currency`
and `transactions` fields are deliberately excluded: they are
order-dependent by design). -/
structure BucketSums where
  count : ℕ
  volume : ℚ
  ic : ℚ
  first_plus : ℚ
  second_plus : ℚ
  mdr : ℚ
  gateway_fee : ℚ
  authorization_fee : ℚ
  clearing_fee : ℚ
  cross_border_fee : ℚ
  cross_currency_fee : ℚ
  preauth_fee : ℚ
  three_ds_fee : ℚ
  non_three_ds_fee : ℚ
  vat : ℚ
  wht : ℚ
  grt : ℚ
  st : ℚ
  net_acquirer_markup : ℚ
  deriving DecidableEq

instance : Zero BucketSums :=
  ⟨⟨0, 0, 0, 0, 0, 0, 0, 0, 0, 0, 0, 0, 0, 0, 0, 0, 0, 0, 0⟩⟩

instance : Add BucketSums :=
  ⟨fun a b =>
    ⟨a.count + b.count, a.volume + b.volume, a.ic + b.ic,
     a.first_plus + b.first_plus, a.second_plus + b.second_plus,
     a.mdr + b.mdr, a.gateway_fee + b.gateway_fee,
     a.authorization_fee + b.authorization_fee,
     a.clearing_fee + b.clearing_fee,
     a.cross_border_fee + b.cross_border_fee,
     a.cross_currency_fee + b.cross_currency_fee,
     a.preauth_fee + b.preauth_fee, a.three_ds_fee + b.three_ds_fee,
     a.non_three_ds_fee + b.non_three_ds_fee, a.vat + b.vat,
     a.wht + b.wht, a.grt + b.grt, a.st + b.st,
     a.net_acquirer_markup + b.net_acquirer_markup⟩⟩

theorem BucketSums.add_def (a b : BucketSums) :
    a + b =
      ⟨a.count + b.count, a.volume + b.volume, a.ic + b.ic,
       a.first_plus + b.first_plus, a.second_plus + b.second_plus,
       a.mdr + b.mdr, a.gateway_fee + b.gateway_fee,
       a.authorization_fee + b.authorization_fee,
       a.clearing_fee + b.clearing_fee,
       a.cross_border_fee + b.cross_border_fee,
       a.cross_currency_fee + b.cross_currency_fee,
       a.preauth_fee + b.preauth_fee, a.three_ds_fee + b.three_ds_fee,
       a.non_three_ds_fee + b.non_three_ds_fee, a.vat + b.vat,
       a.wht + b.wht, a.grt + b.grt, a.st + b.st,
       a.net_acquirer_markup + b.net_acquirer_markup⟩ := rfl

theorem BucketSums.zero_def :
    (0 : BucketSums) =
      ⟨0, 0, 0, 0, 0, 0, 0, 0, 0, 0, 0, 0, 0, 0, 0, 0, 0, 0, 0⟩ := rfl

instance : AddCommMonoid BucketSums where
  add_assoc a b c := by
    simp [BucketSums.add_def, add_assoc]
  zero_add a := by
    cases a
    simp [BucketSums.add_def, BucketSums.zero_def]
  add_zero a := by
    cases a
    simp [BucketSums.add_def, BucketSums.zero_def]
  add_comm a b := by
    simp [BucketSums.add_def]
    constructor
    · exact Nat.add_comm _ _
    refine ⟨add_comm _ _, add_comm _ _, add_comm _ _, add_comm _ _,
      add_comm _ _, add_comm _ _, add_comm _ _, add_comm _ _,
      add_comm _ _, add_comm _ _, add_comm _ _, add_comm _ _,
      add_comm _ _, add_comm _ _, add_comm _ _, add_comm _ _,
      add_comm _ _, add_comm _ _⟩
  nsmul := nsmulRec

/-- The numeric sums of a bucket, as one record. -/
def bucketSums (b : Bucket) : BucketSums :=
  ⟨b.count, b.total_volume, b.total_ic, b.total_first_plus,
   b.total_second_plus, b.total_mdr, b.total_gateway_fee,
   b.total_authorization_fee, b.total_clearing_fee,
   b.total_cross_border_fee, b.total_cross_currency_fee,
   b.total_preauth_fee, b.total_three_ds_fee, b.total_non_three_ds_fee,
   b.total_vat, b.total_wht, b.total_grt, b.total_st,
   b.total_net_acquirer_markup⟩

/-- The numeric contribution one triple adds to its own bucket. -/
def tripleDelta (tr : Triple) : BucketSums :=
  ⟨1, (parseFloatStrict (rowGetD tr.txn "Amount" "0")).getD 0,
   tr.icpp.ic, tr.icpp.first_plus, tr.icpp.second_plus, tr.icpp.mdr,
   tr.icpp.second_plus_details.gateway_fee,
   tr.icpp.second_plus_details.authorization_fee,
   tr.icpp.second_plus_details.clearing_fee,
   tr.icpp.second_plus_details.cross_border_fee,
   tr.icpp.second_plus_details.cross_currency_fee,
   tr.icpp.second_plus_details.preauth_fee,
   tr.icpp.second_plus_details.three_ds_fee,
   tr.icpp.second_plus_details.non_three_ds_fee,
   tr.icpp.second_plus_details.vat, tr.icpp.second_plus_details.wht,
   tr.icpp.second_plus_details.grt, tr.icpp.second_plus_details.st,
   tr.icpp.second_plus_details.net_acquirer_markup⟩

/-- The numeric contribution of a triple to the bucket at key `k`: its
delta on its own key, zero elsewhere. -/
def keyContrib (k : String × String) (tr : Triple) : BucketSums :=
  if k = bucketKey tr then tripleDelta tr else 0

theorem bucketSums_add_transaction_bucket (b : Bucket) (tr : Triple) :
    bucketSums (add_transaction_bucket b tr.txn tr.icpp) =
      bucketSums b + tripleDelta tr := rfl

theorem bucketSums_step (s : Stats) (tr : Triple) (k : String × String) :
    bucketSums (add_transaction s tr k) =
      bucketSums (s k) + keyContrib k tr := by
  unfold add_transaction keyContrib
  by_cases hk : k = bucketKey tr
  · rw [if_pos hk, if_pos hk, bucketSums_add_transaction_bucket]
  · rw [if_neg hk, if_neg hk, add_zero]

theorem bucketSums_foldl (l : List Triple) :
    ∀ (s : Stats) (k : String × String),
      bucketSums (l.foldl add_transaction s k) =
        bucketSums (s k) + (l.map (keyContrib k)).sum := by
  induction l with
  | nil => intro s k; simp
  | cons tr l ih =>
    intro s k
    rw [List.foldl_cons, ih, bucketSums_step, List.map_cons,
      List.sum_cons, add_assoc]

/-- Claim C9: for every permutation of the validated triples, the final
numeric per-bucket sums (`count`, `total_volume`, every `total_*`)
produced by the accumulation pass agree at every bucket key — the
accumulation of the numeric fields is order-independent. -/
theorem aggregate_sums_perm_invariant {l₁ l₂ : List Triple}
    (h : l₁.Perm l₂) (k : String × String) :
    bucketSums (aggregate l₁ k) = bucketSums (aggregate l₂ k) := by
  unfold aggregate
  rw [bucketSums_foldl, bucketSums_foldl, (h.map (keyContrib k)).sum_eq]

/-- Witness for C9: two concrete triples accumulated in either order
give the same numeric sums at their bucket key. -/
theorem aggregate_sums_perm_invariant_witness :
    bucketSums (aggregate
      [⟨[("Amount", "10"), ("Card Type", "Visa"), ("Currency", "HKD")],
        ⟨1, 1/2, 3/2, 3, ⟨1/10, 0, 0, 0, 0, 0, 0, 0, 0, 0, 0, 0, 7/5⟩⟩,
        "HK"⟩,
       ⟨[("Amount", "20"), ("Card Type", "visa"), ("Currency", "HKD")],
        ⟨2, 0, 1, 3, ⟨0, 0, 0, 0, 0, 0, 0, 0, 0, 0, 0, 0, 1⟩⟩,
        "HK"⟩] ("HK", "VISA")) =
    bucketSums (aggregate
      [⟨[("Amount", "20"), ("Card Type", "visa"), ("Currency", "HKD")],
        ⟨2, 0, 1, 3, ⟨0, 0, 0, 0, 0, 0, 0, 0, 0, 0, 0, 0, 1⟩⟩,
        "HK"⟩,
       ⟨[("Amount", "10"), ("Card Type", "Visa"), ("Currency", "HKD")],
        ⟨1, 1/2, 3/2, 3, ⟨1/10, 0, 0, 0, 0, 0, 0, 0, 0, 0, 0, 0, 7/5⟩⟩,
        "HK"⟩] ("HK", "VISA")) :=
  aggregate_sums_perm_invariant
    (List.Perm.swap
      ⟨[("Amount", "20"), ("Card Type", "visa"), ("Currency", "HKD")],
        ⟨2, 0, 1, 3, ⟨0, 0, 0, 0, 0, 0, 0, 0, 0, 0, 0, 0, 1⟩⟩, "HK"⟩
      ⟨[("Amount", "10"), ("Card Type", "Visa"), ("Currency", "HKD")],
        ⟨1, 1/2, 3/2, 3, ⟨1/10, 0, 0, 0, 0, 0, 0, 0, 0, 0, 0, 0, 7/5⟩⟩,
        "HK"⟩ [])
    ("HK", "VISA")

/-- The four derived percentage fields `calculate_percentages` writes
into a bucket. -/
structure PctFields where
  avg_ic_pct : ℚ
  avg_first_plus_pct : ℚ
  avg_second_plus_pct : ℚ
  avg_mdr_pct : ℚ
  deriving DecidableEq

/-- Embeds `StatisticsAggregator.calculate_percentages`, per bucket: the four
average-percentage fields it assigns after accumulation. -/
def calculate_percentages (b : Bucket) : PctFields :=
  if b.total_volume > 0 then
    { avg_ic_pct := |b.total_ic / b.total_volume * 100|
      avg_first_plus_pct := |b.total_first_plus / b.total_volume * 100|
      avg_second_plus_pct := |b.total_second_plus / b.total_volume * 100|
      avg_mdr_pct := |b.total_mdr / b.total_volume * 100| }
  else ⟨0, 0, 0, 0⟩

/-- A concrete valid transaction with negative amount `-50` (negative
amounts pass the validity filter: parseable and nonzero). -/
def negAmountTxn : Row :=
  [("Payment Type", "SALE"), ("Amount", "-50"),
   ("Processor Status", "APPROVED"), ("Card Type", "VISA"),
   ("Currency", "HKD"), ("Transaction ID", "T-1")]

/-- A concrete fee record with MDR 3 and interchange 1. -/
def negAmountFees : FeeRecord := { mdr_amount := 3, interchange_amount := 1 }

/-- The bucket reached by accumulating the negative-amount transaction. -/
def negAmountBucket : Bucket :=
  aggregate
    [⟨negAmountTxn, calculate_icpp negAmountTxn negAmountFees "HK", "HK"⟩]
    ("HK", "VISA")

/-- Counterexample for C7: a transaction with the negative amount `-50`
passes the validity filter, so a bucket with negative `total_volume` is
reachable; on it the finalize pass writes `avg_ic_pct = 0`, not
`abs(total_ic / total_volume * 100) = 2` as the claim's "0.0 only when
total_volume is 0" reading requires. -/
theorem calculate_percentages_negative_volume_counterexample :
    is_valid_transaction negAmountTxn = (true, "") ∧
    negAmountBucket.total_volume = -50 ∧
    negAmountBucket.total_ic = 1 ∧
    calculate_percentages negAmountBucket = ⟨0, 0, 0, 0⟩ ∧
    (calculate_percentages negAmountBucket).avg_ic_pct ≠
      |negAmountBucket.total_ic / negAmountBucket.total_volume * 100| := by
  have hvol : negAmountBucket.total_volume = -50 := by
    show (0 : ℚ) + -((50 : ℕ) : ℚ) = -50
    norm_num
  have hic : negAmountBucket.total_ic = 1 := by
    show (0 : ℚ) + (1 : ℚ) = 1
    norm_num
  have hnotpos : ¬ negAmountBucket.total_volume > 0 := by
    rw [hvol]
    norm_num
  have hpct : calculate_percentages negAmountBucket = ⟨0, 0, 0, 0⟩ := by
    unfold calculate_percentages
    rw [if_neg hnotpos]
  have hvalid : is_valid_transaction negAmountTxn = (true, "") := by
    unfold is_valid_transaction
    simp only []
    rw [if_neg (by decide :
      ¬(strContains (upperStr (rowGet negAmountTxn "Payment Type"))
          "REFUND" = true ∨
        upperStr (rowGet negAmountTxn "Payment Type") = "RF"))]
    rw [show rowGetD negAmountTxn "Amount" "0" = "-50" from rfl]
    rw [show parseFloatStrict "-50" = some (-((50 : ℕ) : ℚ)) from rfl]
    show (if -((50 : ℕ) : ℚ) = 0 then ((false : Bool), "Zero amount")
      else
        if upperStr (rowGet negAmountTxn "Processor Status") = "DECLINED" ∨
            upperStr (rowGet negAmountTxn "Processor Status") = "FAILED" ∨
            upperStr (rowGet negAmountTxn "Processor Status") = "ERROR" then
          ((false : Bool),
            "Status: " ++ upperStr (rowGet negAmountTxn "Processor Status"))
        else ((true : Bool), "")) = ((true : Bool), "")
    rw [if_neg (by norm_num : ¬ -((50 : ℕ) : ℚ) = 0)]
    rfl
  refine ⟨hvalid, hvol, hic, hpct, ?_⟩
  rw [hpct, hvol, hic]
  norm_num

/-- Claim C7 (amended): after the finalize pass each derived percentage
field equals `abs(total / total_volume * 100)` when `total_volume` is
positive, and `0.0` otherwise — i.e. also for negative volume, not only
for zero volume. -/
theorem calculate_percentages_characterization (b : Bucket) :
    (b.total_volume > 0 →
      calculate_percentages b =
        ⟨|b.total_ic / b.total_volume * 100|,
         |b.total_first_plus / b.total_volume * 100|,
         |b.total_second_plus / b.total_volume * 100|,
         |b.total_mdr / b.total_volume * 100|⟩) ∧
    (¬ b.total_volume > 0 → calculate_percentages b = ⟨0, 0, 0, 0⟩) := by
  unfold calculate_percentages
  constructor
  · intro h
    rw [if_pos h]
  · intro h
    rw [if_neg h]

/-- Witness for C7 (amended): both branches at concrete buckets — a
positive-volume bucket gets the absolute percentage, the zero bucket
gets zeros. -/
theorem calculate_percentages_characterization_witness :
    calculate_percentages
      { emptyBucket with total_volume := 100, total_ic := 1 } =
      ⟨|(1 : ℚ) / 100 * 100|, |(0 : ℚ) / 100 * 100|,
       |(0 : ℚ) / 100 * 100|, |(0 : ℚ) / 100 * 100|⟩ ∧
    calculate_percentages emptyBucket = ⟨0, 0, 0, 0⟩ :=
  ⟨(calculate_percentages_characterization
      { emptyBucket with total_volume := 100, total_ic := 1 }).1
      (by decide),
   (calculate_percentages_characterization emptyBucket).2 (by decide)⟩

end ICPP
